import Mathlib

/-!
Verification of `scripts/add_widget_target.py`.

The script is a straight-line program: it loads an Xcode project file
through the external `pbxproj` library, short-circuits when a target named
`DequeueWidgets` already exists, otherwise adds each existing file of
`SHARED_SOURCES` to the `Dequeue` target via the library's `add_file`,
saves the project, and prints follow-up instructions.

The embedding is a shallow one.  The observable behaviour of one run is a
trace of events (printed lines and external calls).  The filesystem and
the external library are modelled by an environment `Env` recording the
result of each operation the script can invoke; every operation on the
library may fail, and an unhandled failure is recorded as the second
component of the run's result.
-/

/-- One observable event of a run: a printed line, the `XcodeProject.load`
call, an `add_file` call (with its arguments and the truthiness of its
return value), or the `save` call. -/
inductive Event where
  | print (line : String)
  | load (path : String)
  | add_file (path : String) (parent : Option String) (targetName : String) (result : Bool)
  | save
  deriving DecidableEq

/-- `os.path.join` for the relative components used by the script. -/
def os_path_join (a b : String) : String := a ++ "/" ++ b

/-- `PROJECT_PATH` of the script, as a function of the directory two
levels above the script file (`os.path.dirname(os.path.dirname(abspath(__file__)))`). -/
def PROJECT_PATH (root : String) : String :=
  os_path_join (os_path_join (os_path_join root ("Dequeue")) ("Dequeue.xcodeproj")) ("project.pbxproj")

/-- The `WIDGET_TARGET_NAME` constant (line 21 of the script). -/
def WIDGET_TARGET_NAME : String := "DequeueWidgets"

/-- The `WIDGET_BUNDLE_ID` constant (line 22 of the script). -/
def WIDGET_BUNDLE_ID : String := "com.ardonos.Dequeue.widgets"

/-- The `WIDGET_SOURCES` list (lines 25-30 of the script). -/
def WIDGET_SOURCES : List String :=
  [ "DequeueWidgets/DequeueWidgetBundle.swift"
  , "DequeueWidgets/ActiveStackWidget.swift"
  , "DequeueWidgets/UpNextWidget.swift"
  , "DequeueWidgets/QuickStatsWidget.swift" ]

/-- The `SHARED_SOURCES` list (lines 33-35 of the script). -/
def SHARED_SOURCES : List String :=
  [ "Shared/WidgetModels.swift" ]

/-- `full_path` computed in the loop body (lines 52-55):
`os.path.join(root, "Dequeue", source)`. -/
def full_path (root source : String) : String :=
  os_path_join (os_path_join root ("Dequeue")) source

/-- A single-quote character, used in the guard message. -/
def squote : String := String.singleton (Char.ofNat 39)

/-- The message printed by the existing-target guard (line 44). -/
def guardMessage : String :=
  "Target " ++ squote ++ WIDGET_TARGET_NAME ++ squote ++ " already exists. Skipping."

/-- The success message of line 64. -/
def addedMessage (source : String) : String :=
  "  Added " ++ source ++ " to Dequeue target"

/-- The falsy-result message of line 66. -/
def alreadyMessage (source : String) : String :=
  "  " ++ source ++ " may already exist in project"

/-- The two events that start every run: the line-38 print and the
`XcodeProject.load` call of line 39. -/
def loadEvents (root : String) : List Event :=
  [ Event.print ("Loading project: " ++ PROJECT_PATH root)
  , Event.load (PROJECT_PATH root) ]

/-- The prints after a successful save (lines 71-80). -/
def donePrints : List Event :=
  [ Event.print ("Done! Shared files added to main Dequeue target.")
  , Event.print ("")
  , Event.print ("NOTE: The widget extension target (DequeueWidgets) needs to be added")
  , Event.print ("through Xcode: File > New > Target > Widget Extension.")
  , Event.print ("Then add the widget source files to that target.")
  , Event.print ("")
  , Event.print ("Widget files to add:") ]
  ++ WIDGET_SOURCES.map (fun s => Event.print ("  - Dequeue/" ++ s))
  ++ [ Event.print ("  - Dequeue/Shared/WidgetModels.swift (add to BOTH targets)") ]

/-- The environment of one run: the outcome of every external operation
the script can invoke.  `loadResult` is the `XcodeProject.load` outcome,
yielding the names of the project's build targets; `existsOnDisk` is
`os.path.exists`; `add_file` is the library call of lines 58-62, keyed by
the full path and the `target_name` argument, returning the truthiness of
its value or raising; `saveResult` is the `project.save()` outcome.
Errors model Python exceptions.  The structure is the script's entire
input footprint: the script reads no command-line flags and no
environment variables. -/
structure Env where
  loadResult : Except String (List String)
  existsOnDisk : String → Bool
  add_file : String → String → Except String Bool
  saveResult : Except String Unit

/-- The loop over `SHARED_SOURCES` (lines 51-66): for each source, if the
resolved path exists on disk, call `add_file` with `target_name="Dequeue"`
and print one line chosen by the call's result; a raised exception stops
the loop.  Returns the events of the loop and the escaping exception, if
any. -/
def processShared (env : Env) (root : String) : List String → List Event × Option String
  | [] => ([], none)
  | source :: rest =>
    let fp := full_path root source
    if env.existsOnDisk fp then
      match env.add_file fp ("Dequeue") with
      | Except.error e => ([], some e)
      | Except.ok result =>
        let evs := [ Event.add_file fp none ("Dequeue") result
                   , Event.print (if result then addedMessage source else alreadyMessage source) ]
        let (evrest, err) := processShared env root rest
        (evs ++ evrest, err)
    else processShared env root rest

/-- The `main` function of the script (lines 37-80), as a function of the
`WIDGET_BUNDLE_ID` constant's value (line 22; the body never reads it),
the resolved root directory, and the environment.  Returns the trace of
the run and, when an external operation raised, the exception that
propagates unhandled out of `main`. -/
def main' (_bundleId root : String) (env : Env) : List Event × Option String :=
  let ev0 := loadEvents root
  match env.loadResult with
  | Except.error e => (ev0, some e)
  | Except.ok targets =>
    if targets.contains WIDGET_TARGET_NAME then
      (ev0 ++ [Event.print guardMessage], none)
    else
      let ev1 := ev0 ++ [Event.print ("Adding widget source files...")]
      let (evShared, err) := processShared env root SHARED_SOURCES
      match err with
      | some e => (ev1 ++ evShared, some e)
      | none =>
        let ev2 := ev1 ++ evShared ++ [Event.print ("Saving project..."), Event.save]
        match env.saveResult with
        | Except.error e => (ev2, some e)
        | Except.ok _ => (ev2 ++ donePrints, none)

/-- Modelled from the spec: the `pbxproj` library's project state and its
`add_file`/`save` semantics are not part of this repository (the spec
treats the library as "an opaque collaborator").  Following the spec's
words — "print success or `already exists` based on a single
boolean/None-ish return value" and "the second run detects the
already-added shared file … and performs no duplicate mutation" — the
project descriptor is modelled as the list of (file, target) associations
it records, and `add_file` inserts the association when it is new and
returns truthy, and returns falsy leaving the descriptor unchanged when
the association is already present. -/
def specAdd (st : List (String × String)) (fp tn : String) : Bool × List (String × String) :=
  if (fp, tn) ∈ st then (false, st) else (true, (fp, tn) :: st)

/-- The `SHARED_SOURCES` loop run against the spec-modelled library,
threading the descriptor state. -/
def processSharedSpec (root : String) (disk : String → Bool) (st : List (String × String)) :
    List String → List Event × List (String × String)
  | [] => ([], st)
  | source :: rest =>
    let fp := full_path root source
    if disk fp then
      let (result, st1) := specAdd st fp ("Dequeue")
      let evs := [ Event.add_file fp none ("Dequeue") result
                 , Event.print (if result then addedMessage source else alreadyMessage source) ]
      let (evrest, st2) := processSharedSpec root disk st1 rest
      (evs ++ evrest, st2)
    else processSharedSpec root disk st rest

/-- The script's `main` run against the spec-modelled library: the loaded
project's target names (which the script never changes) are `targets`,
the descriptor's association state is `st`.  Returns the trace and the
descriptor state the `save` of line 70 persists. -/
def mainSpec (root : String) (disk : String → Bool) (targets : List String)
    (st : List (String × String)) : List Event × List (String × String) :=
  if targets.contains WIDGET_TARGET_NAME then
    (loadEvents root ++ [Event.print guardMessage], st)
  else
    let (evS, st1) := processSharedSpec root disk st SHARED_SOURCES
    (loadEvents root ++ [Event.print ("Adding widget source files...")]
      ++ evS ++ [Event.print ("Saving project..."), Event.save] ++ donePrints, st1)

/-- The loop of lines 51-66 as the spec states it: "for each path in one
fixed list, check existence on disk, and if present, request that the
external API associate that file with a named target; print success or
`already exists` based on a single boolean/None-ish return value".
Stated with `List.flatMap` over the fixed list; compared against
`processShared` (translated from the code) in the C4 theorem. -/
def sharedLoopSpec (root : String) (env : Env) : List Event :=
  SHARED_SOURCES.flatMap (fun source =>
    let fp := full_path root source
    if env.existsOnDisk fp then
      match env.add_file fp ("Dequeue") with
      | Except.error _ => []
      | Except.ok result =>
        [ Event.add_file fp none ("Dequeue") result
        , Event.print (if result then addedMessage source else alreadyMessage source) ]
    else [])

/-- An environment where the project loads with no targets, nothing
exists on disk, every `add_file` would report a fresh insertion, and the
save succeeds. -/
def envAllMissing : Env :=
  ⟨Except.ok [], fun _ => false, fun _ _ => Except.ok true, Except.ok ()⟩

/-- Like `envAllMissing`, but every path exists on disk. -/
def envAllPresent : Env :=
  ⟨Except.ok [], fun _ => true, fun _ _ => Except.ok true, Except.ok ()⟩

/-- An environment whose loaded project already has a `DequeueWidgets` target. -/
def envGuard : Env :=
  ⟨Except.ok ["Dequeue", "DequeueWidgets"], fun _ => false, fun _ _ => Except.ok true, Except.ok ()⟩

/-- An environment where `XcodeProject.load` raises. -/
def envLoadErr : Env :=
  ⟨Except.error "load failed", fun _ => false, fun _ _ => Except.ok true, Except.ok ()⟩

/-- An environment where `add_file` raises (and every path exists). -/
def envAddErr : Env :=
  ⟨Except.ok [], fun _ => true, fun _ _ => Except.error "add_file failed", Except.ok ()⟩

/-- An environment where `project.save()` raises. -/
def envSaveErr : Env :=
  ⟨Except.ok [], fun _ => false, fun _ _ => Except.ok true, Except.error "save failed"⟩

/-- An environment that agrees with `envAllMissing` on everything the
script observes (the load outcome, existence of the one shared path, the
`add_file` outcome at that path for target `Dequeue`, the save outcome)
but differs elsewhere: other paths exist on disk, and `add_file` at other
keys would answer differently. -/
def envOther : Env :=
  ⟨Except.ok []
  , fun p => !(p == full_path ("r") ("Shared/WidgetModels.swift"))
  , fun p tn => if p == full_path ("r") ("Shared/WidgetModels.swift") && tn == "Dequeue"
      then Except.ok true else Except.ok false
  , Except.ok ()⟩

/-- Cancellation of a common prefix of `String.append`, used to separate
the shared source's resolved path from the widget sources' paths. -/
theorem string_append_left_cancel (a b c : String) (h : a ++ b = a ++ c) : b = c := by
  have hd := congrArg String.data h
  simp [String.data_append] at hd
  exact String.ext hd

/-- The two resolved paths of distinct relative sources are distinct. -/
theorem full_path_injOn (root a b : String) (h : full_path root a = full_path root b) : a = b := by
  have h1 : (root ++ "/" ++ "Dequeue" ++ "/") ++ a = (root ++ "/" ++ "Dequeue" ++ "/") ++ b := by
    simpa [full_path, os_path_join, String.append_assoc] using h
  exact string_append_left_cancel _ _ _ h1

/-- Every `Event.add_file` event emitted by the `SHARED_SOURCES` loop
comes from some listed source: its path is that source's resolved path,
its parent is `None` and its target name is `Dequeue`. -/
theorem processShared_add_file_shape (env : Env) (root : String) (l : List String)
    (p : String) (pa : Option String) (tn : String) (r : Bool)
    (h : Event.add_file p pa tn r ∈ (processShared env root l).1) :
    ∃ s ∈ l, p = full_path root s ∧ pa = none ∧ tn = "Dequeue" := by
  induction l with
  | nil => simp [processShared] at h
  | cons source rest ih =>
    by_cases hd : env.existsOnDisk (full_path root source)
    · rcases ha : env.add_file (full_path root source) ("Dequeue") with e | res
      · rw [processShared, if_pos hd, ha] at h
        simp at h
      · rw [processShared, if_pos hd, ha] at h
        simp only [List.mem_append, List.mem_cons] at h
        rcases h with ((h | h) | h)
        · rcases Event.add_file.inj h with ⟨hp, hpa, htn, _⟩
          exact ⟨source, List.mem_cons_self .., hp, hpa, htn⟩
        · simp at h
        · rcases ih h with ⟨s, hs, hrest⟩
          exact ⟨s, List.mem_cons_of_mem _ hs, hrest⟩
    · rw [processShared, if_neg hd] at h
      rcases ih h with ⟨s, hs, hrest⟩
      exact ⟨s, List.mem_cons_of_mem _ hs, hrest⟩

/-- C10: the `WIDGET_BUNDLE_ID` constant (line 22) is never read by any
operation of `main`: two runs that differ only in the value of that
constant produce the same trace (the same printed lines, the same
external calls, hence the same effects on the project descriptor) and the
same propagated exception. -/
theorem bundle_id_not_read (b root : String) (env : Env) :
    main' b root env = main' WIDGET_BUNDLE_ID root env := rfl

/-- C2: if the loaded project has a build target named
`DequeueWidgets` (the value of `WIDGET_TARGET_NAME`), `main` prints the
skip message and returns at once: the whole trace is the loading print,
the load call and the guard message, so no `add_file` call is made and
`save` is never invoked — the only event that writes the descriptor file
back to disk — and no exception escapes. -/
theorem main_guard_short_circuits (b root : String) (env : Env) (targets : List String)
    (h1 : env.loadResult = Except.ok targets)
    (h2 : targets.contains WIDGET_TARGET_NAME = true) :
    main' b root env = (loadEvents root ++ [Event.print guardMessage], none) ∧
    Event.save ∉ (main' b root env).1 ∧
    ∀ p pa tn r, Event.add_file p pa tn r ∉ (main' b root env).1 := by
  have hm : main' b root env = (loadEvents root ++ [Event.print guardMessage], none) := by
    rw [main', h1]
    simp only [h2]
    simp
  refine ⟨hm, ?_, ?_⟩
  · rw [hm]
    simp [loadEvents]
  · intro p pa tn r
    rw [hm]
    simp [loadEvents]

/-- C2 witness: a concrete run whose loaded project already contains the
`DequeueWidgets` target. -/
theorem main_guard_short_circuits_witness :
    main' WIDGET_BUNDLE_ID ("r") envGuard
        = (loadEvents ("r") ++ [Event.print guardMessage], none) ∧
    Event.save ∉ (main' WIDGET_BUNDLE_ID ("r") envGuard).1 ∧
    ∀ p pa tn r, Event.add_file p pa tn r ∉ (main' WIDGET_BUNDLE_ID ("r") envGuard).1 :=
  main_guard_short_circuits WIDGET_BUNDLE_ID ("r") envGuard ["Dequeue", "DequeueWidgets"]
    rfl (by decide)

/-- C3 counterexample: the claim asserts that for a listed shared source
file missing on disk the script "prints a path-specific message for that
file".  A message printed for (because of) the skipped file would have to
distinguish the skipping run from a run in which the file is present and
added; but with root `r` and the shared file absent
(`envAllMissing`), every line the run prints is also printed by the run
in which the file is present and added (`envAllPresent`): the skip is
silent, no line is printed for the missing file. -/
theorem missing_shared_no_skip_message :
    ¬ ∃ line, Event.print line ∈ (main' WIDGET_BUNDLE_ID ("r") envAllMissing).1 ∧
        Event.print line ∉ (main' WIDGET_BUNDLE_ID ("r") envAllPresent).1 := by
  rintro ⟨line, h1, h2⟩
  apply h2
  simp [main', loadEvents, processShared, donePrints, envAllMissing, envAllPresent,
    SHARED_SOURCES, WIDGET_SOURCES, PROJECT_PATH, os_path_join, full_path,
    addedMessage] at h1 ⊢
  rcases h1 with h | h | h | h | h | h | h | h | h | h | h | h | h | h | h <;> simp [h]

/-- C3 amended: for every listed shared source file whose resolved path
does not exist on disk, the script skips it without raising and without
printing any message for that file; the run continues to completion —
here with every listed shared source missing, the trace is exactly the
fixed lines, the load call, and the save call, and no exception
escapes. -/
theorem missing_shared_skipped_silently (b root : String) (env : Env) (targets : List String)
    (h1 : env.loadResult = Except.ok targets)
    (h2 : targets.contains WIDGET_TARGET_NAME = false)
    (h3 : ∀ s ∈ SHARED_SOURCES, env.existsOnDisk (full_path root s) = false)
    (h4 : env.saveResult = Except.ok ()) :
    main' b root env = (loadEvents root ++ [Event.print ("Adding widget source files...")]
      ++ [Event.print ("Saving project..."), Event.save] ++ donePrints, none) := by
  have hd := h3 ("Shared/WidgetModels.swift") (by simp [SHARED_SOURCES])
  rw [main', h1]
  simp only [h2]
  simp [SHARED_SOURCES, processShared, hd, h4]

/-- C3 amended witness: the concrete all-missing run. -/
theorem missing_shared_skipped_silently_witness :
    main' WIDGET_BUNDLE_ID ("r") envAllMissing
      = (loadEvents ("r") ++ [Event.print ("Adding widget source files...")]
        ++ [Event.print ("Saving project..."), Event.save] ++ donePrints, none) :=
  missing_shared_skipped_silently WIDGET_BUNDLE_ID ("r") envAllMissing []
    rfl (by decide) (by intro s _; rfl) rfl

/-- C4: when the existing-target guard does not fire and no invoked
operation raises, the events of the run between the `Adding widget source
files...` print and the `Saving project...` print are exactly
`sharedLoopSpec`: for each path of `SHARED_SOURCES` in list order, the
script checks existence on disk, invokes `add_file` (with the `Dequeue`
target, parent `None`) exactly when the file is present, and prints the
success line when the returned value is truthy and the
`may already exist` line when it is falsy, deciding between the two solely
on that return value. -/
theorem shared_loop_refines_spec (b root : String) (env : Env) (targets : List String)
    (h1 : env.loadResult = Except.ok targets)
    (h2 : targets.contains WIDGET_TARGET_NAME = false)
    (h3 : ∀ s ∈ SHARED_SOURCES, env.existsOnDisk (full_path root s) = true →
        ∃ r, env.add_file (full_path root s) ("Dequeue") = Except.ok r)
    (h4 : env.saveResult = Except.ok ()) :
    main' b root env =
      (loadEvents root ++ [Event.print ("Adding widget source files...")]
        ++ sharedLoopSpec root env
        ++ [Event.print ("Saving project..."), Event.save] ++ donePrints, none) := by
  rw [main', h1]
  simp only [h2]
  by_cases hd : env.existsOnDisk (full_path root ("Shared/WidgetModels.swift")) = true
  · obtain ⟨r, hr⟩ := h3 ("Shared/WidgetModels.swift") (by simp [SHARED_SOURCES]) hd
    simp [SHARED_SOURCES, processShared, sharedLoopSpec, hd, hr, h4]
  · simp only [Bool.not_eq_true] at hd
    simp [SHARED_SOURCES, processShared, sharedLoopSpec, hd, h4]

/-- C4 witness: a concrete run in which the shared file is present on
disk and `add_file` reports a fresh insertion. -/
theorem shared_loop_refines_spec_witness :
    main' WIDGET_BUNDLE_ID ("r") envAllPresent =
      (loadEvents ("r") ++ [Event.print ("Adding widget source files...")]
        ++ sharedLoopSpec ("r") envAllPresent
        ++ [Event.print ("Saving project..."), Event.save] ++ donePrints, none) :=
  shared_loop_refines_spec WIDGET_BUNDLE_ID ("r") envAllPresent []
    rfl (by decide) (by intro s _ _; exact ⟨true, rfl⟩) rfl

/-- C5: the script installs no exception handler: a failure raised by
`XcodeProject.load`, by the library's `add_file` call, or by
`project.save()` propagates unhandled out of `main` (the run's result
carries that very exception), with no catch, retry or fallback on any
path. -/
theorem external_failures_propagate (b root : String) (env : Env) (e : String) :
    (env.loadResult = Except.error e → main' b root env = (loadEvents root, some e)) ∧
    (∀ targets, env.loadResult = Except.ok targets →
      targets.contains WIDGET_TARGET_NAME = false →
      env.existsOnDisk (full_path root ("Shared/WidgetModels.swift")) = true →
      env.add_file (full_path root ("Shared/WidgetModels.swift")) ("Dequeue") = Except.error e →
      main' b root env
        = (loadEvents root ++ [Event.print ("Adding widget source files...")], some e)) ∧
    (∀ targets, env.loadResult = Except.ok targets →
      targets.contains WIDGET_TARGET_NAME = false →
      (∀ s ∈ SHARED_SOURCES, env.existsOnDisk (full_path root s) = true →
        ∃ r, env.add_file (full_path root s) ("Dequeue") = Except.ok r) →
      env.saveResult = Except.error e →
      (main' b root env).2 = some e) := by
  refine ⟨?_, ?_, ?_⟩
  · intro h
    rw [main', h]
  · intro targets h1 h2 hd ha
    rw [main', h1]
    simp only [h2]
    simp [SHARED_SOURCES, processShared, hd, ha]
  · intro targets h1 h2 h3 h4
    rw [main', h1]
    simp only [h2]
    by_cases hd : env.existsOnDisk (full_path root ("Shared/WidgetModels.swift")) = true
    · obtain ⟨r, hr⟩ := h3 ("Shared/WidgetModels.swift") (by simp [SHARED_SOURCES]) hd
      simp [SHARED_SOURCES, processShared, hd, hr, h4]
    · simp only [Bool.not_eq_true] at hd
      simp [SHARED_SOURCES, processShared, hd, h4]

/-- C5 witness: three concrete runs, one per failing operation; in each,
the exception raised by that operation is the one that escapes `main`. -/
theorem external_failures_propagate_witness :
    main' WIDGET_BUNDLE_ID ("r") envLoadErr = (loadEvents ("r"), some ("load failed")) ∧
    main' WIDGET_BUNDLE_ID ("r") envAddErr
      = (loadEvents ("r") ++ [Event.print ("Adding widget source files...")],
         some ("add_file failed")) ∧
    (main' WIDGET_BUNDLE_ID ("r") envSaveErr).2 = some ("save failed") :=
  ⟨(external_failures_propagate WIDGET_BUNDLE_ID ("r") envLoadErr ("load failed")).1 rfl
  , (external_failures_propagate WIDGET_BUNDLE_ID ("r") envAddErr ("add_file failed")).2.1
      [] rfl (by decide) rfl rfl
  , (external_failures_propagate WIDGET_BUNDLE_ID ("r") envSaveErr ("save failed")).2.2
      [] rfl (by decide) (by intro s _ _; exact ⟨true, rfl⟩) rfl⟩

/-- C9: whenever the guard does not fire and the `add_file` calls the
loop performs do not raise, `main` invokes `save` exactly once — the
trace contains a single `Event.save`, after the whole shared-source loop
(no `add_file` event follows it) — and this holds regardless of whether
any file was actually added (the loop may have performed zero calls), so
the project descriptor file is rewritten on every non-short-circuited
run. -/
theorem save_called_exactly_once (b root : String) (env : Env) (targets : List String)
    (h1 : env.loadResult = Except.ok targets)
    (h2 : targets.contains WIDGET_TARGET_NAME = false)
    (h3 : ∀ s ∈ SHARED_SOURCES, env.existsOnDisk (full_path root s) = true →
        ∃ r, env.add_file (full_path root s) ("Dequeue") = Except.ok r) :
    ∃ pre post, (main' b root env).1 = pre ++ Event.save :: post ∧
      Event.save ∉ pre ∧ Event.save ∉ post ∧
      ∀ p pa tn r, Event.add_file p pa tn r ∉ post := by
  rw [main', h1]
  simp only [h2]
  have hpost : ∀ st : List Event, st = donePrints ∨ st = ([] : List Event) →
      Event.save ∉ st ∧ ∀ p pa tn r, Event.add_file p pa tn r ∉ st := by
    rintro st (rfl | rfl) <;> constructor <;> simp [donePrints, WIDGET_SOURCES]
  by_cases hd : env.existsOnDisk (full_path root ("Shared/WidgetModels.swift")) = true
  · obtain ⟨r, hr⟩ := h3 ("Shared/WidgetModels.swift") (by simp [SHARED_SOURCES]) hd
    rcases hs : env.saveResult with e | u
    · refine ⟨loadEvents root ++ [Event.print ("Adding widget source files...")]
        ++ [ Event.add_file (full_path root ("Shared/WidgetModels.swift")) none ("Dequeue") r
           , Event.print (if r then addedMessage ("Shared/WidgetModels.swift")
               else alreadyMessage ("Shared/WidgetModels.swift")) ]
        ++ [Event.print ("Saving project...")], [], ?_, ?_, ?_, ?_⟩
      · simp [SHARED_SOURCES, processShared, hd, hr, hs]
      · simp [loadEvents]
      · simp
      · intro p pa tn r'; simp
    · refine ⟨loadEvents root ++ [Event.print ("Adding widget source files...")]
        ++ [ Event.add_file (full_path root ("Shared/WidgetModels.swift")) none ("Dequeue") r
           , Event.print (if r then addedMessage ("Shared/WidgetModels.swift")
               else alreadyMessage ("Shared/WidgetModels.swift")) ]
        ++ [Event.print ("Saving project...")], donePrints, ?_, ?_, ?_, ?_⟩
      · simp [SHARED_SOURCES, processShared, hd, hr, hs]
      · simp [loadEvents]
      · exact (hpost donePrints (Or.inl rfl)).1
      · exact (hpost donePrints (Or.inl rfl)).2
  · simp only [Bool.not_eq_true] at hd
    rcases hs : env.saveResult with e | u
    · refine ⟨loadEvents root ++ [Event.print ("Adding widget source files...")]
        ++ [Event.print ("Saving project...")], [], ?_, ?_, ?_, ?_⟩
      · simp [SHARED_SOURCES, processShared, hd, hs]
      · simp [loadEvents]
      · simp
      · intro p pa tn r'; simp
    · refine ⟨loadEvents root ++ [Event.print ("Adding widget source files...")]
        ++ [Event.print ("Saving project...")], donePrints, ?_, ?_, ?_, ?_⟩
      · simp [SHARED_SOURCES, processShared, hd, hs]
      · simp [loadEvents]
      · exact (hpost donePrints (Or.inl rfl)).1
      · exact (hpost donePrints (Or.inl rfl)).2

/-- C9 witness: a concrete non-short-circuited run in which zero files
were added (every listed shared source is missing on disk); `save` is
still invoked, exactly once, after the loop. -/
theorem save_called_exactly_once_witness :
    ∃ pre post, (main' WIDGET_BUNDLE_ID ("r") envAllMissing).1 = pre ++ Event.save :: post ∧
      Event.save ∉ pre ∧ Event.save ∉ post ∧
      ∀ p pa tn r, Event.add_file p pa tn r ∉ post :=
  save_called_exactly_once WIDGET_BUNDLE_ID ("r") envAllMissing []
    rfl (by decide) (by intro s _ _; exact ⟨true, rfl⟩)

/-- The `SHARED_SOURCES` loop only observes the existence of the listed
resolved paths and the `add_file` outcomes at those paths for target
`Dequeue`: two environments that agree there produce the same loop
events and the same escaping exception. -/
theorem processShared_congr (env1 env2 : Env) (root : String) (l : List String)
    (h2 : ∀ s ∈ l, env1.existsOnDisk (full_path root s) = env2.existsOnDisk (full_path root s))
    (h3 : ∀ s ∈ l, env1.add_file (full_path root s) ("Dequeue")
        = env2.add_file (full_path root s) ("Dequeue")) :
    processShared env1 root l = processShared env2 root l := by
  induction l with
  | nil => rfl
  | cons source rest ih =>
    have hd := h2 source (List.mem_cons_self ..)
    have ha := h3 source (List.mem_cons_self ..)
    have ihr := ih (fun s hs => h2 s (List.mem_cons_of_mem _ hs))
      (fun s hs => h3 s (List.mem_cons_of_mem _ hs))
    simp only [processShared, hd, ha, ihr]

/-- C7: the run is a deterministic function of the filesystem state the
script observes.  The embedding's `Env` is the script's entire input
footprint (no command-line flags, no environment variables, no other
input), and within it only four observations matter: the load outcome,
the existence on disk of the resolved `SHARED_SOURCES` paths, the
`add_file` outcomes at those paths for the `Dequeue` target, and the save
outcome.  Two runs agreeing on those (and on nothing else — they may
differ on every other path and key, and on the unread bundle-identifier
constant) have identical traces, hence identical printed output and
identical mutations. -/
theorem behavior_determined_by_filesystem (b1 b2 root : String) (env1 env2 : Env)
    (h1 : env1.loadResult = env2.loadResult)
    (h2 : ∀ s ∈ SHARED_SOURCES,
        env1.existsOnDisk (full_path root s) = env2.existsOnDisk (full_path root s))
    (h3 : ∀ s ∈ SHARED_SOURCES, env1.add_file (full_path root s) ("Dequeue")
        = env2.add_file (full_path root s) ("Dequeue"))
    (h4 : env1.saveResult = env2.saveResult) :
    main' b1 root env1 = main' b2 root env2 := by
  have hps := processShared_congr env1 env2 root SHARED_SOURCES h2 h3
  simp only [main', h1, h4, hps]

/-- C7 witness: `envAllMissing` and `envOther` agree only on what the
script observes (they differ on the existence of every other path and on
other `add_file` keys), and the bundle identifiers differ too; the runs
coincide. -/
theorem behavior_determined_by_filesystem_witness :
    main' WIDGET_BUNDLE_ID ("r") envAllMissing = main' ("x") ("r") envOther :=
  behavior_determined_by_filesystem WIDGET_BUNDLE_ID ("x") ("r") envAllMissing envOther
    rfl (by decide)
    (by
      intro s hs
      have hs' : s = "Shared/WidgetModels.swift" := by simpa [SHARED_SOURCES] using hs
      subst hs'
      rfl)
    rfl

/-- C8: every `add_file` call of any run is for the resolved path of the
one listed shared source and for the target named `Dequeue` — never for
`DequeueWidgets`, and never for the resolved path of any of the four
`WIDGET_SOURCES` entries (those paths occur only in the printed follow-up
instructions). -/
theorem add_file_only_main_target (b root : String) (env : Env)
    (p : String) (pa : Option String) (tn : String) (r : Bool)
    (h : Event.add_file p pa tn r ∈ (main' b root env).1) :
    tn = "Dequeue" ∧ tn ≠ WIDGET_TARGET_NAME ∧
    p = full_path root ("Shared/WidgetModels.swift") ∧
    ∀ w ∈ WIDGET_SOURCES, p ≠ full_path root w := by
  have hshape : ∃ s ∈ SHARED_SOURCES, p = full_path root s ∧ pa = none ∧ tn = "Dequeue" := by
    rw [main'] at h
    rcases hl : env.loadResult with e | targets <;> rw [hl] at h
    · simp [loadEvents] at h
    · cases hg : targets.contains WIDGET_TARGET_NAME <;> simp only [hg] at h
      · rcases hpr : processShared env root SHARED_SOURCES with ⟨evShared, err⟩
        rw [hpr] at h
        have hmem : Event.add_file p pa tn r ∈ (processShared env root SHARED_SOURCES).1 := by
          rw [hpr]
          rcases err with _ | e
          · rcases hs : env.saveResult with e | u <;> rw [hs] at h <;>
              simp [loadEvents, donePrints, WIDGET_SOURCES] at h <;> simpa using h
          · simp [loadEvents] at h
            simpa using h
        exact processShared_add_file_shape env root SHARED_SOURCES p pa tn r hmem
      · simp [loadEvents] at h
  rcases hshape with ⟨s, hs, hp, _, htn⟩
  have hs' : s = "Shared/WidgetModels.swift" := by simpa [SHARED_SOURCES] using hs
  subst hs' htn hp
  refine ⟨rfl, by decide, rfl, ?_⟩
  intro w hw heq
  have hsw := full_path_injOn root _ _ heq
  have hw' : w = "DequeueWidgets/DequeueWidgetBundle.swift"
      ∨ w = "DequeueWidgets/ActiveStackWidget.swift"
      ∨ w = "DequeueWidgets/UpNextWidget.swift"
      ∨ w = "DequeueWidgets/QuickStatsWidget.swift" := by
    simpa [WIDGET_SOURCES] using hw
  rcases hw' with rfl | rfl | rfl | rfl <;> exact absurd hsw (by decide)

/-- C8 witness: the one `add_file` call of a concrete successful run is
for the shared source's resolved path and the `Dequeue` target. -/
theorem add_file_only_main_target_witness :
    ("Dequeue" : String) = "Dequeue" ∧ ("Dequeue" : String) ≠ WIDGET_TARGET_NAME ∧
    full_path ("r") ("Shared/WidgetModels.swift") = full_path ("r") ("Shared/WidgetModels.swift") ∧
    ∀ w ∈ WIDGET_SOURCES,
      full_path ("r") ("Shared/WidgetModels.swift") ≠ full_path ("r") w :=
  add_file_only_main_target WIDGET_BUNDLE_ID ("r") envAllPresent
    (full_path ("r") ("Shared/WidgetModels.swift")) none ("Dequeue") true (by decide)

/-- C6: against the spec-modelled library, one non-short-circuited run
changes the persisted descriptor state only by prepending the
new (file, target) association entries the library inserts for the
`SHARED_SOURCES` list: the previous descriptor content survives intact
and every inserted entry associates a listed shared source's resolved
path with the `Dequeue` target — the script itself introduces no other
modification. -/
theorem save_only_adds_shared_entries (root : String) (disk : String → Bool)
    (targets : List String) (st0 : List (String × String))
    (h : targets.contains WIDGET_TARGET_NAME = false) :
    ∃ added, (mainSpec root disk targets st0).2 = added ++ st0 ∧
      ∀ pr ∈ added, ∃ s ∈ SHARED_SOURCES, pr = (full_path root s, "Dequeue") := by
  rw [mainSpec]
  simp only [h]
  by_cases hd : disk (full_path root ("Shared/WidgetModels.swift")) = true
  · by_cases hm : (full_path root ("Shared/WidgetModels.swift"), ("Dequeue" : String)) ∈ st0
    · refine ⟨[], ?_, by simp⟩
      simp [SHARED_SOURCES, processSharedSpec, specAdd, hd, hm]
    · refine ⟨[(full_path root ("Shared/WidgetModels.swift"), "Dequeue")], ?_, ?_⟩
      · simp [SHARED_SOURCES, processSharedSpec, specAdd, hd, hm]
      · intro pr hpr
        have hpr' : pr = (full_path root ("Shared/WidgetModels.swift"), "Dequeue") := by
          simpa using hpr
        exact ⟨"Shared/WidgetModels.swift", by simp [SHARED_SOURCES], hpr'⟩
  · simp only [Bool.not_eq_true] at hd
    refine ⟨[], ?_, by simp⟩
    simp [SHARED_SOURCES, processSharedSpec, hd]

/-- C6 witness: a concrete run from an empty descriptor with the shared
file present inserts only shared-source entries. -/
theorem save_only_adds_shared_entries_witness :
    ∃ added, (mainSpec ("r") (fun _ => true) [] []).2
        = added ++ ([] : List (String × String)) ∧
      ∀ pr ∈ added, ∃ s ∈ SHARED_SOURCES, pr = (full_path ("r") s, "Dequeue") :=
  save_only_adds_shared_entries ("r") (fun _ => true) [] [] (by decide)

/-- C1: running the script twice in succession against the spec-modelled
library is idempotent.  Whatever the first run did, the second run leaves
the descriptor state exactly as the first run left it, and either the
target-name guard fires (a `DequeueWidgets` target exists, the second run
returns right after printing the skip message) or every `add_file` call
the second run performs reports an already-existing file (a falsy
result): the second run performs no duplicate mutation of the project
descriptor. -/
theorem mainSpec_second_run_idempotent (root : String) (disk : String → Bool)
    (targets : List String) (st0 : List (String × String)) :
    ((mainSpec root disk targets (mainSpec root disk targets st0).2).2
        = (mainSpec root disk targets st0).2) ∧
    ((targets.contains WIDGET_TARGET_NAME = true ∧
        (mainSpec root disk targets (mainSpec root disk targets st0).2).1
          = loadEvents root ++ [Event.print guardMessage]) ∨
      ∀ p pa tn r, Event.add_file p pa tn r ∈
          (mainSpec root disk targets (mainSpec root disk targets st0).2).1 → r = false) := by
  cases hg : targets.contains WIDGET_TARGET_NAME
  · have hg' : WIDGET_TARGET_NAME ∉ targets := by simpa using hg
    by_cases hd : disk (full_path root ("Shared/WidgetModels.swift")) = true
    · by_cases hm : (full_path root ("Shared/WidgetModels.swift"), ("Dequeue" : String)) ∈ st0
      · refine ⟨?_, Or.inr ?_⟩
        · simp [mainSpec, SHARED_SOURCES, processSharedSpec, specAdd, hg', hd, hm]
        · intro p pa tn r hmem
          simp [mainSpec, SHARED_SOURCES, processSharedSpec, specAdd, hg', hd, hm,
            loadEvents, donePrints, WIDGET_SOURCES] at hmem
          exact hmem.2.2.2
      · have hm1 : (full_path root ("Shared/WidgetModels.swift"), ("Dequeue" : String))
            ∈ (full_path root ("Shared/WidgetModels.swift"), ("Dequeue" : String)) :: st0 :=
          List.mem_cons_self ..
        refine ⟨?_, Or.inr ?_⟩
        · simp [mainSpec, SHARED_SOURCES, processSharedSpec, specAdd, hg', hd, hm, hm1]
        · intro p pa tn r hmem
          simp [mainSpec, SHARED_SOURCES, processSharedSpec, specAdd, hg', hd, hm, hm1,
            loadEvents, donePrints, WIDGET_SOURCES] at hmem
          exact hmem.2.2.2
    · simp only [Bool.not_eq_true] at hd
      refine ⟨?_, Or.inr ?_⟩
      · simp [mainSpec, SHARED_SOURCES, processSharedSpec, hg', hd]
      · intro p pa tn r hmem
        simp [mainSpec, SHARED_SOURCES, processSharedSpec, hg', hd,
          loadEvents, donePrints, WIDGET_SOURCES] at hmem
  · have hg' : WIDGET_TARGET_NAME ∈ targets := by simpa using hg
    refine ⟨?_, Or.inl ⟨rfl, ?_⟩⟩ <;> simp [mainSpec, hg']
